import Mathlib

/-!
Shallow embedding of the multi-agent delegation and domain-gating core of the
repository: the per-agent relevance gate and specialist `run` wrappers
(`app/agent/finance_lead_agent.py`, `app/agent/law_lead_agent.py`), the
delegation tool (`app/tool/agent_call_tool.py`), and the outward registry and
cleanup handler (`api_server.py`).

External collaborators (the LLM completion API and the inherited step-by-step
reasoning loop `ToolCallAgent.run`) are passed in as explicit function
parameters, matching the spec's treatment of them as opaque capabilities.
Python exceptions are modelled with `Except`; object identity of agent
instances is modelled with an allocation counter.
-/

set_option autoImplicit false

namespace Spec2Proof

/-- A single quote character, used inside log and error message strings. -/
def sq : String := "\x27"

/-- Modelled from the spec: message roles of `app/schema.py` (the schema module
itself is not under `src/`; the spec describes conversation memory as an
ordered sequence of `{role, content}` messages). -/
inductive Role where
  | user
  | assistant
  deriving DecidableEq, Repr

/-- Modelled from the spec: a conversation message (`app/schema.py` is not
under `src/`). -/
structure Message where
  role : Role
  content : String
  deriving DecidableEq, Repr

/-- `Message.user_message` of `app/schema.py`. -/
def Message.user_message (s : String) : Message := ⟨Role.user, s⟩

/-- `Message.assistant_message` of `app/schema.py`. -/
def Message.assistant_message (s : String) : Message := ⟨Role.assistant, s⟩

/-- Modelled from the spec: conversation memory, an append-only ordered
sequence of messages (`app/schema.py` is not under `src/`). -/
structure Memory where
  messages : List Message
  deriving DecidableEq, Repr

/-- Modelled from the spec: `Memory.add_message` appends one message at the
end, preserving order. -/
def Memory.add_message (m : Memory) (msg : Message) : Memory :=
  ⟨m.messages ++ [msg]⟩

/-- The reply object of the completion capability
(`chat_completion(...) -> {content: text}`). -/
structure ChatResponse where
  content : String
  deriving DecidableEq, Repr

/-- A failure of the completion capability (`CompletionError` in the spec's
external-interface contract); carries the exception text `str(e)`. -/
structure CompletionError where
  msg : String
  deriving DecidableEq, Repr

/-- The argument record of one `chat_completion` call: messages, the output
token cap and the sampling temperature. -/
structure ChatRequest where
  messages : List Message
  max_tokens : Nat
  temperature : ℚ

/-- The opaque LLM completion capability: one call either returns a reply or
raises. -/
abbrev LLM := ChatRequest → Except CompletionError ChatResponse

/-- The opaque reasoning-loop capability (`ToolCallAgent.run`, inherited via
`super().run(request)`; out of scope per the spec): takes the forwarded query
and the current memory, returns a text result or raises, owning its own memory
bookkeeping. Exceptions carry their `str(e)` text. -/
abbrev Loop := String → Memory → Except String String × Memory

/-- Python's default whitespace test used by `str.strip()` (restricted to the
ASCII whitespace characters). -/
def pyIsSpace (c : Char) : Bool :=
  c = ' ' || c = '\t' || c = '\n' || c = '\r' || c = Char.ofNat 11 || c = Char.ofNat 12

/-- Python `str.strip()`: drop leading and trailing whitespace. -/
def pyStrip (s : String) : String :=
  String.mk (((s.toList.dropWhile pyIsSpace).reverse.dropWhile pyIsSpace).reverse)

/-- Python `str.upper()` (ASCII case mapping). -/
def pyUpper (s : String) : String :=
  String.mk (s.toList.map Char.toUpper)

namespace FinanceLeadAgent

/-- The fixed refusal message of `FinanceLeadAgent.run`
(`app/agent/finance_lead_agent.py:76`). -/
def refusal_message : String :=
  "I specialize in Finance and Financial Management topics. This question seems outside my area of expertise."

/-- `DOMAIN_CHECK_PROMPT_TEMPLATE.format(query=query)` of
`app/agent/finance_lead_agent.py:46-52`: the template has a single
`\x7bquery\x7d` placeholder just before the trailing newline, so formatting is
concatenation around the raw query. -/
def check_prompt (query : String) : String :=
  "\nAnalyze the following user query. Determine if it is primarily related to Finance and financial management concepts, tools, or practices (e.g., financial analysis, corporate finance, investments, risk management, financial modeling, M&A, financial markets, accounting, budgeting, etc.).\n\nAnswer **only** with \x27YES\x27 or \x27NO\x27.\n\nUser Query: " ++ query ++ "\n"

/-- The classification request issued by `FinanceLeadAgent._is_query_relevant`
(`app/agent/finance_lead_agent.py:90-94`): one user message holding the check
prompt, `max_tokens=10`, `temperature=0.0`. -/
def check_request (query : String) : ChatRequest :=
  { messages := [Message.user_message (check_prompt query)]
    max_tokens := 10
    temperature := 0 }

/-- `FinanceLeadAgent._is_query_relevant` (`app/agent/finance_lead_agent.py:86-100`):
issue the classification call, normalize the reply with `.strip().upper()` and
compare with `"YES"`; on any exception return `True` (fail open). -/
def is_query_relevant (llm : LLM) (query : String) : Bool :=
  match llm (check_request query) with
  | .ok response => pyUpper (pyStrip response.content) == "YES"
  | .error _ => true

/-- The log lines emitted by `FinanceLeadAgent._is_query_relevant`: a debug
line with the normalized answer on success, an error line on exception
(`app/agent/finance_lead_agent.py:96,99`). -/
def is_query_relevant_log (llm : LLM) (query : String) : List String :=
  match llm (check_request query) with
  | .ok response =>
      ["Domain check response: " ++ sq ++ pyUpper (pyStrip response.content) ++ sq]
  | .error e => ["Error during domain check: " ++ e.msg]

end FinanceLeadAgent

deriving instance DecidableEq for Except

/-- The observable outcome of one specialist `run` call: the returned text (or
propagated exception), the agent's conversation memory afterwards, and the
list of queries passed to the inherited reasoning-loop capability (in order),
used to state that the refusal path never enters the loop. -/
structure RunOutcome where
  result : Except String String
  memory : Memory
  loopCalls : List String
  deriving DecidableEq, Repr

/-- `FinanceLeadAgent.run` (`app/agent/finance_lead_agent.py:65-83`): run the
domain gate; if irrelevant, append the user query and the fixed refusal to
memory and return the refusal; otherwise delegate to the inherited reasoning
loop with the original query and return its result unchanged. -/
def FinanceLeadAgent.run (llm : LLM) (loop : Loop) (memory : Memory)
    (request : String) : RunOutcome :=
  let is_relevant := FinanceLeadAgent.is_query_relevant llm request
  if is_relevant = false then
    { result := .ok FinanceLeadAgent.refusal_message
      memory := (memory.add_message (Message.user_message request)).add_message
        (Message.assistant_message FinanceLeadAgent.refusal_message)
      loopCalls := [] }
  else
    let (r, m) := loop request memory
    { result := r, memory := m, loopCalls := [request] }

namespace LawLeadAgent

/-- The fixed refusal message of `LawLeadAgent.run`
(`app/agent/law_lead_agent.py:82`). -/
def refusal_message : String :=
  "I specialize in Law and Legal topics. This question seems outside my area of expertise."

/-- The fixed legal disclaimer appended by `LawLeadAgent.run`
(`app/agent/law_lead_agent.py:92`). -/
def disclaimer : String :=
  "\n\nDisclaimer: This response is for informational purposes only and does not constitute legal advice. Please consult with a qualified legal professional for advice about your specific situation."

/-- `DOMAIN_CHECK_PROMPT_TEMPLATE.format(query=query)` of
`app/agent/law_lead_agent.py:52-58`. -/
def check_prompt (query : String) : String :=
  "\nAnalyze the following user query. Determine if it is primarily related to Law and legal matters (e.g., corporate law, contracts, intellectual property, employment law, regulations, compliance, litigation, etc.).\n\nAnswer **only** with \x27YES\x27 or \x27NO\x27.\n\nUser Query: " ++ query ++ "\n"

/-- The classification request issued by `LawLeadAgent._is_query_relevant`
(`app/agent/law_lead_agent.py:100-104`). -/
def check_request (query : String) : ChatRequest :=
  { messages := [Message.user_message (check_prompt query)]
    max_tokens := 10
    temperature := 0 }

/-- `LawLeadAgent._is_query_relevant` (`app/agent/law_lead_agent.py:96-110`):
same gate as the finance agent with the law classification prompt. -/
def is_query_relevant (llm : LLM) (query : String) : Bool :=
  match llm (check_request query) with
  | .ok response => pyUpper (pyStrip response.content) == "YES"
  | .error _ => true

end LawLeadAgent

/-- `LawLeadAgent.run` (`app/agent/law_lead_agent.py:71-93`): gate, refusal
path as the finance agent, and on successful loop completion append the fixed
legal disclaimer to the loop's result; a loop exception propagates without the
disclaimer. -/
def LawLeadAgent.run (llm : LLM) (loop : Loop) (memory : Memory)
    (request : String) : RunOutcome :=
  let is_relevant := LawLeadAgent.is_query_relevant llm request
  if is_relevant = false then
    { result := .ok LawLeadAgent.refusal_message
      memory := (memory.add_message (Message.user_message request)).add_message
        (Message.assistant_message LawLeadAgent.refusal_message)
      loopCalls := [] }
  else
    let (r, m) := loop request memory
    { result := r.map (fun response => response ++ LawLeadAgent.disclaimer)
      memory := m
      loopCalls := [request] }

/-- The agent kinds the two registries can construct: the dispatch targets of
`AgentCallTool._get_agent` (`app/tool/agent_call_tool.py:95-119`) plus `manus`,
constructed only by the outward handler (`api_server.py:30-31`). -/
inductive AgentKind where
  | mcp
  | data_eng
  | product_manager
  | tech_lead
  | finance_lead
  | law_lead
  | seo_lead
  | marketing_lead
  | hr_lead
  | manus
  deriving DecidableEq, Repr

/-- A live agent object held in a registry. Python object identity is modelled
by `id`, drawn from an allocation counter: each constructor call
(`FinanceLeadAgent()`, ...) yields a fresh `id`, so two values with the same
`id` denote the identical instance. -/
structure AgentInstance where
  id : Nat
  kind : AgentKind
  deriving DecidableEq, Repr

/-- Registry lookup, `agent_type in dict` / `dict[agent_type]` over the
insertion-ordered association list modelling a Python dict. -/
def lookupKey : List (String × AgentInstance) → String → Option AgentInstance
  | [], _ => none
  | (k, v) :: rest, key => if k = key then some v else lookupKey rest key

/-- Python dict assignment `dict[key] = v`: replace the value if the key is
present, else append at the end (insertion order). -/
def insertKey : List (String × AgentInstance) → String → AgentInstance →
    List (String × AgentInstance)
  | [], key, v => [(key, v)]
  | (k, v0) :: rest, key, v =>
      if k = key then (key, v) :: rest else (k, v0) :: insertKey rest key v

/-- Python `del dict[key]` (keys are unique): drop the one entry. -/
def removeKey : List (String × AgentInstance) → String → List (String × AgentInstance)
  | [], _ => []
  | (k, v) :: rest, key => if k = key then rest else (k, v) :: removeKey rest key

/-- The opaque "run the resolved specialist" capability seen by the delegation
tool (`await agent.run(full_query)`): returns the specialist's text or raises,
exceptions carrying their `str(e)` text. -/
abbrev RunAgent := AgentInstance → String → Except String String

/-- The opaque per-instance `cleanup` capability (`await agent.cleanup()`). -/
abbrev CleanupAgent := AgentInstance → Except String Unit

namespace AgentCallTool

/-- The dispatch chain of `AgentCallTool._get_agent`
(`app/tool/agent_call_tool.py:98-117`): which constructor a string agent type
selects; `none` corresponds to the `raise ValueError` branch. -/
def kindOf (agent_type : String) : Option AgentKind :=
  if agent_type = "mcp" then some .mcp
  else if agent_type = "data_eng" then some .data_eng
  else if agent_type = "product_manager" then some .product_manager
  else if agent_type = "tech_lead" then some .tech_lead
  else if agent_type = "finance_lead" then some .finance_lead
  else if agent_type = "law_lead" then some .law_lead
  else if agent_type = "seo_lead" then some .seo_lead
  else if agent_type = "marketing_lead" then some .marketing_lead
  else if agent_type = "hr_lead" then some .hr_lead
  else none

/-- `AgentCallTool._agent_descriptions` (`app/tool/agent_call_tool.py:45-55`). -/
def agent_descriptions : List (String × String) :=
  [("mcp", "Browser Automation Specialist"),
   ("data_eng", "Data Engineering Expert"),
   ("product_manager", "Product Management Specialist"),
   ("tech_lead", "Technical Architecture Expert"),
   ("finance_lead", "Financial Analysis Specialist"),
   ("law_lead", "Legal Specialist"),
   ("seo_lead", "SEO Expert"),
   ("marketing_lead", "Marketing Specialist"),
   ("hr_lead", "Human Resources Specialist")]

/-- `self._agent_descriptions.get(agent_type, agent_type)`
(`app/tool/agent_call_tool.py:61`). -/
def descriptionOf (agent_type : String) : String :=
  match agent_descriptions.lookup agent_type with
  | some d => d
  | none => agent_type

end AgentCallTool

/-- The per-tool-instance state of `AgentCallTool`: its own registry
`_agent_instances` plus the allocation counter modelling constructor calls.
Modelled from the spec for the scoping: the `Tool` base class (`app/tool`,
not under `src/`) makes `_agent_instances` per-instance private state, and the
spec fixes "memoized thereafter for the life of the Delegation Tool" with the
tool's registry scoped to its Generalist Agent's lifetime. -/
structure AgentCallTool where
  agent_instances : List (String × AgentInstance)
  nextId : Nat
  deriving DecidableEq, Repr

/-- `AgentCallTool._get_agent` (`app/tool/agent_call_tool.py:95-119`): return
the cached instance, or construct, cache and return a fresh one; raise
`ValueError(f"Unknown agent type: ...")` for an unknown type. The updated tool
state is returned alongside. -/
def AgentCallTool.get_agent (t : AgentCallTool) (agent_type : String) :
    Except String (AgentInstance × AgentCallTool) :=
  match lookupKey t.agent_instances agent_type with
  | some inst => .ok (inst, t)
  | none =>
      match AgentCallTool.kindOf agent_type with
      | some k =>
          let inst : AgentInstance := ⟨t.nextId, k⟩
          .ok (inst, { agent_instances := insertKey t.agent_instances agent_type inst
                       nextId := t.nextId + 1 })
      | none => .error ("Unknown agent type: " ++ agent_type)

/-- `f"{context}\n\nQuery: {query}" if context else query`
(`app/tool/agent_call_tool.py:71`); Python truthiness makes both `None` and
the empty string fall to the bare query. -/
def AgentCallTool.full_query (context : Option String) (query : String) : String :=
  match context with
  | some c => if c = "" then query else c ++ "\n\nQuery: " ++ query
  | none => query

/-- `f"Error calling agent '{agent_type}': {str(e)}"`
(`app/tool/agent_call_tool.py:91`). -/
def AgentCallTool.error_result (agent_type e : String) : String :=
  "Error calling agent " ++ sq ++ agent_type ++ sq ++ ": " ++ e

/-- The provenance wrapper of `AgentCallTool._run`
(`app/tool/agent_call_tool.py:86`). -/
def AgentCallTool.formatted_result (description agent_type result : String) : String :=
  "=== Results from " ++ description ++ " (" ++ agent_type ++ ") ===\n\n" ++ result
    ++ "\n\n=== End of " ++ description ++ " Results ==="

/-- `AgentCallTool._run` (`app/tool/agent_call_tool.py:57-93`): resolve the
agent, forward `full_query`, wrap the result with provenance markers; the
enclosing `try/except` converts any exception (unknown type, specialist
failure) into the descriptive error string, so the call always returns text.
Returns the text together with the tool state afterwards. -/
def AgentCallTool.run (t : AgentCallTool) (runAgent : RunAgent)
    (agent_type query : String) (context : Option String) :
    String × AgentCallTool :=
  let agent_description := AgentCallTool.descriptionOf agent_type
  match t.get_agent agent_type with
  | .error e => (AgentCallTool.error_result agent_type e, t)
  | .ok (agent, t2) =>
      match runAgent agent (AgentCallTool.full_query context query) with
      | .error e => (AgentCallTool.error_result agent_type e, t2)
      | .ok result =>
          (AgentCallTool.formatted_result agent_description agent_type result, t2)

/-- The loop body of `AgentCallTool.cleanup` (`app/tool/agent_call_tool.py:123-129`):
iterate the cached instances in order, invoke each one's `cleanup` inside its
own `try/except` (a failure is logged and does not abort the loop), and record
which keys were attempted and which failed. -/
def AgentCallTool.cleanup_loop :
    List (String × AgentInstance) → CleanupAgent → List (String × Option String)
  | [], _ => []
  | (k, a) :: rest, f =>
      match f a with
      | .ok _ => (k, none) :: AgentCallTool.cleanup_loop rest f
      | .error e => (k, some e) :: AgentCallTool.cleanup_loop rest f

/-- `AgentCallTool.cleanup` (`app/tool/agent_call_tool.py:121-132`): attempt
every cached instance's cleanup, then `self._agent_instances.clear()`. Returns
the tool state afterwards and the attempt log. -/
def AgentCallTool.cleanup (t : AgentCallTool) (f : CleanupAgent) :
    AgentCallTool × List (String × Option String) :=
  ({ t with agent_instances := [] }, AgentCallTool.cleanup_loop t.agent_instances f)

namespace ApiServer

/-- The dispatch chain of `api_server.get_agent` (`api_server.py:29-50`): the
outward handler can additionally construct the generalist `manus`; an unmatched
string sets nothing, after which `agents[agent_type]` raises `KeyError`. -/
def kindOf (agent_type : String) : Option AgentKind :=
  if agent_type = "manus" then some .manus
  else if agent_type = "mcp" then some .mcp
  else if agent_type = "data_eng" then some .data_eng
  else if agent_type = "product_manager" then some .product_manager
  else if agent_type = "tech_lead" then some .tech_lead
  else if agent_type = "finance_lead" then some .finance_lead
  else if agent_type = "law_lead" then some .law_lead
  else if agent_type = "seo_lead" then some .seo_lead
  else if agent_type = "marketing_lead" then some .marketing_lead
  else if agent_type = "hr_lead" then some .hr_lead
  else none

/-- `api_server.get_agent` (`api_server.py:27-51`) over the module-level
`agents` dict: return the cached instance or construct and cache a fresh one;
an unknown type falls through to the final `agents[agent_type]` lookup, which
raises `KeyError` (modelled as the error case). Returns the instance together
with the registry and allocation counter afterwards. -/
def get_agent (agents : List (String × AgentInstance)) (nextId : Nat)
    (agent_type : String) :
    Except Unit (AgentInstance × List (String × AgentInstance) × Nat) :=
  match lookupKey agents agent_type with
  | some inst => .ok (inst, agents, nextId)
  | none =>
      match kindOf agent_type with
      | some k =>
          let inst : AgentInstance := ⟨nextId, k⟩
          .ok (inst, insertKey agents agent_type inst, nextId + 1)
      | none => .error ()

/-- The else-branch of `api_server.cleanup_agents` (`api_server.py:103-105`):
`for agent_type, agent in list(agents.items()):` run the agent's cleanup, then
`del agents[agent_type]`. There is no `try` here: a raising cleanup aborts the
loop, leaving the failing entry and the not-yet-visited entries cached.
Returns the registry afterwards, the propagated exception if any, and the keys
whose cleanup was invoked, in order. -/
def cleanup_all :
    List (String × AgentInstance) → CleanupAgent →
    List (String × AgentInstance) × Option String × List String
  | [], _ => ([], none, [])
  | (k, a) :: rest, f =>
      match f a with
      | .error e => ((k, a) :: rest, some e, [k])
      | .ok _ =>
          let (m, err, ks) := cleanup_all rest f
          (m, err, k :: ks)

/-- `api_server.cleanup_agents` (`api_server.py:86-106`), the registry-release
handler: with a truthy `agent_type` that is cached, clean that one instance and
delete it; otherwise (no `agent_type`, empty string, or a type not in the
registry) fall to the clean-up-all branch. Returns the registry afterwards,
the propagated exception if any, and the keys whose cleanup was invoked. -/
def cleanup_agents (agents : List (String × AgentInstance)) (f : CleanupAgent)
    (agent_type : Option String) :
    List (String × AgentInstance) × Option String × List String :=
  match agent_type with
  | some t =>
      if t = "" then cleanup_all agents f
      else
        match lookupKey agents t with
        | some a =>
            match f a with
            | .error e => (agents, some e, [t])
            | .ok _ => (removeKey agents t, none, [t])
        | none => cleanup_all agents f
  | none => cleanup_all agents f

end ApiServer

/-- Modelled from the spec: the process-wide state relevant to registry
scoping. The `Tool` base class (`app/tool`, not under `src/`) decides whether
`_agent_instances` is per-instance; the spec states two independently lived
registries with the Delegation Tool's registry scoped to its own Generalist
Agent, so each `AgentCallTool` instance (keyed by an instance id) carries its
own registry, next to the outward `agents` dict of `api_server.py:25`. -/
structure ProcessState where
  serverAgents : List (String × AgentInstance)
  serverNextId : Nat
  tools : List (Nat × AgentCallTool)
  deriving DecidableEq, Repr

/-- Look up one delegation-tool instance's private state by its instance id. -/
def lookupTool : List (Nat × AgentCallTool) → Nat → Option AgentCallTool
  | [], _ => none
  | (i, t) :: rest, j => if i = j then some t else lookupTool rest j

/-- Replace one delegation-tool instance's private state, keeping the others. -/
def updateTool : List (Nat × AgentCallTool) → Nat → AgentCallTool →
    List (Nat × AgentCallTool)
  | [], _, _ => []
  | (i, t0) :: rest, j, t => if i = j then (i, t) :: rest else (i, t0) :: updateTool rest j t

/-- Modelled from the spec: `AgentCallTool._run` executed on the tool instance
`i` inside the whole process — it reads and writes only that instance's
private registry, never the outward `agents` dict nor another tool's registry.
`none` when no tool instance `i` exists. -/
def ProcessState.toolRun (p : ProcessState) (i : Nat) (runAgent : RunAgent)
    (agent_type query : String) (context : Option String) :
    Option (String × ProcessState) :=
  match lookupTool p.tools i with
  | none => none
  | some t =>
      let (r, t2) := t.run runAgent agent_type query context
      some (r, { p with tools := updateTool p.tools i t2 })

/-- Modelled from the spec: `AgentCallTool.cleanup` executed on the tool
instance `i` inside the whole process. -/
def ProcessState.toolCleanup (p : ProcessState) (i : Nat) (f : CleanupAgent) :
    Option ProcessState :=
  match lookupTool p.tools i with
  | none => none
  | some t =>
      let (t2, _) := t.cleanup f
      some { p with tools := updateTool p.tools i t2 }

/-! ## Helper definitions for theorems and witnesses -/

/-- Following the spec's words (not the source, which has no such postprocess
for the finance agent): "the descriptor's postprocess appends a fixed
disclaimer string with a leading blank-line separator to the loop's result",
i.e. the output is the loop result, then `"\n\n"`, then a nonempty disclaimer. -/
def specDisclaimerAppended (loopResult output : String) : Bool :=
  (loopResult ++ "\n\n").toList.isPrefixOf output.toList
    && decide ((loopResult ++ "\n\n").toList.length < output.toList.length)

/-- A completion capability that always answers with the given reply. -/
def llmReply (reply : String) : LLM := fun _ => .ok ⟨reply⟩

/-- A completion capability that always raises. -/
def llmFail (msg : String) : LLM := fun _ => .error ⟨msg⟩

/-- A reasoning-loop capability that returns a fixed answer, memory unchanged. -/
def loopConst (answer : String) : Loop := fun _ m => (.ok answer, m)

/-- How one agent's `cleanup` outcome appears in the delegation tool's cleanup
log: `none` on success, the exception text on failure. -/
def cleanupError : Except String Unit → Option String
  | .ok _ => none
  | .error e => some e

/-- Looking up a key just inserted finds the inserted value. -/
theorem lookupKey_insertKey_self (m : List (String × AgentInstance))
    (k : String) (v : AgentInstance) : lookupKey (insertKey m k v) k = some v := by
  induction m with
  | nil => simp [insertKey, lookupKey]
  | cons hd tl ih =>
      obtain ⟨k0, v0⟩ := hd
      by_cases hk : k0 = k
      · subst hk; simp [insertKey, lookupKey]
      · simp [insertKey, lookupKey, hk, ih]

/-- Updating one tool instance's private state leaves every other tool
instance's state untouched. -/
theorem lookupTool_updateTool_of_ne (m : List (Nat × AgentCallTool))
    (i j : Nat) (t : AgentCallTool) (h : j ≠ i) :
    lookupTool (updateTool m i t) j = lookupTool m j := by
  induction m with
  | nil => rfl
  | cons hd tl ih =>
      obtain ⟨k, t0⟩ := hd
      by_cases hk : k = i
      · subst hk
        have hj : ¬ k = j := fun hkj => h (hkj ▸ rfl)
        simp [updateTool, lookupTool, hj]
      · simp [updateTool, lookupTool, hk, ih]

/-- The delegation tool's cleanup loop produces exactly one log entry per
cached instance, in cache order, each recording that instance's own cleanup
outcome — independently of any other instance's failure. -/
theorem cleanup_loop_eq_map (l : List (String × AgentInstance)) (f : CleanupAgent) :
    AgentCallTool.cleanup_loop l f = l.map (fun p => (p.1, cleanupError (f p.2))) := by
  induction l with
  | nil => rfl
  | cons hd tl ih =>
      obtain ⟨k, a⟩ := hd
      cases hf : f a <;> simp [AgentCallTool.cleanup_loop, hf, cleanupError, ih]

/-! ## Claim theorems -/

/-- C1 (counterexample): with the gate answering `YES` and the reasoning loop
returning `"Use discounted cash flow..."` on the spec's scenario-A query,
`FinanceLeadAgent.run` returns the loop's result unchanged — no fixed
disclaimer with a leading blank-line separator is appended to it. -/
theorem finance_run_no_disclaimer_cx :
    (FinanceLeadAgent.run (llmReply "YES") (loopConst "Use discounted cash flow...")
        ⟨[]⟩ "How do I value a SaaS company using DCF?").result
      = .ok "Use discounted cash flow..."
    ∧ specDisclaimerAppended "Use discounted cash flow..." "Use discounted cash flow..."
      = false := by
  constructor
  · rfl
  · decide

/-- C1 (amended): when the relevance gate passes, `FinanceLeadAgent.run`
returns the reasoning loop's result verbatim (its descriptor has no
postprocess); the disclaimer-appending postprocess lives in `LawLeadAgent.run`,
whose result is the loop's result with the fixed legal disclaimer (leading
blank-line separator) appended. -/
theorem finance_postprocess_amended (llm : LLM) (loop : Loop) (mem : Memory)
    (q : String)
    (hf : FinanceLeadAgent.is_query_relevant llm q = true)
    (hl : LawLeadAgent.is_query_relevant llm q = true) :
    (FinanceLeadAgent.run llm loop mem q).result = (loop q mem).1
    ∧ (LawLeadAgent.run llm loop mem q).result
        = ((loop q mem).1).map (fun r => r ++ LawLeadAgent.disclaimer) := by
  refine ⟨?_, ?_⟩ <;> simp [FinanceLeadAgent.run, LawLeadAgent.run, hf, hl]

theorem finance_postprocess_amended_witness :
    (FinanceLeadAgent.run (llmReply "YES") (loopConst "R") ⟨[]⟩ "q").result = .ok "R"
    ∧ (LawLeadAgent.run (llmReply "YES") (loopConst "R") ⟨[]⟩ "q").result
        = .ok ("R" ++ LawLeadAgent.disclaimer) :=
  finance_postprocess_amended (llmReply "YES") (loopConst "R") ⟨[]⟩ "q"
    (by decide) (by decide)

/-- C4: whenever the classification completion call raises, the finance gate
returns `true` (fails open, treating the query as relevant), and its log
records the failure. -/
theorem gate_fails_open (llm : LLM) (q : String) (e : CompletionError)
    (h : llm (FinanceLeadAgent.check_request q) = .error e) :
    FinanceLeadAgent.is_query_relevant llm q = true
    ∧ FinanceLeadAgent.is_query_relevant_log llm q
        = ["Error during domain check: " ++ e.msg] := by
  refine ⟨?_, ?_⟩ <;>
    simp [FinanceLeadAgent.is_query_relevant, FinanceLeadAgent.is_query_relevant_log, h]

theorem gate_fails_open_witness :
    FinanceLeadAgent.is_query_relevant (llmFail "network down") "any query" = true
    ∧ FinanceLeadAgent.is_query_relevant_log (llmFail "network down") "any query"
        = ["Error during domain check: network down"] :=
  gate_fails_open (llmFail "network down") "any query" ⟨"network down"⟩ rfl

/-- C5: when the relevance gate returns false, a specialist's `run` (finance
and law alike) makes zero reasoning-loop invocations, appends exactly the user
query and then the fixed refusal message to conversation memory, and returns
the fixed refusal string verbatim. -/
theorem specialist_refusal_path (llm : LLM) (loop : Loop) (mem : Memory)
    (q : String)
    (hf : FinanceLeadAgent.is_query_relevant llm q = false)
    (hl : LawLeadAgent.is_query_relevant llm q = false) :
    FinanceLeadAgent.run llm loop mem q =
      { result := .ok FinanceLeadAgent.refusal_message
        memory := ⟨mem.messages ++
          [Message.user_message q,
           Message.assistant_message FinanceLeadAgent.refusal_message]⟩
        loopCalls := [] }
    ∧ LawLeadAgent.run llm loop mem q =
      { result := .ok LawLeadAgent.refusal_message
        memory := ⟨mem.messages ++
          [Message.user_message q,
           Message.assistant_message LawLeadAgent.refusal_message]⟩
        loopCalls := [] } := by
  refine ⟨?_, ?_⟩ <;>
    simp [FinanceLeadAgent.run, LawLeadAgent.run, hf, hl, Memory.add_message]

theorem specialist_refusal_path_witness :
    FinanceLeadAgent.run (llmReply "NO") (loopConst "L") ⟨[]⟩ "What is the weather?" =
      { result := .ok FinanceLeadAgent.refusal_message
        memory := ⟨[Message.user_message "What is the weather?",
          Message.assistant_message FinanceLeadAgent.refusal_message]⟩
        loopCalls := [] }
    ∧ LawLeadAgent.run (llmReply "NO") (loopConst "L") ⟨[]⟩ "What is the weather?" =
      { result := .ok LawLeadAgent.refusal_message
        memory := ⟨[Message.user_message "What is the weather?",
          Message.assistant_message LawLeadAgent.refusal_message]⟩
        loopCalls := [] } :=
  specialist_refusal_path (llmReply "NO") (loopConst "L") ⟨[]⟩ "What is the weather?"
    (by decide) (by decide)

/-- C8: for every reply the completion call returns, the finance gate answers
true exactly when the reply, stripped of surrounding whitespace and
upper-cased, equals `"YES"`; and the classification request pins temperature
to 0.0 with a 10-token output cap. -/
theorem gate_normalization_and_params (llm : LLM) (q r : String)
    (h : llm (FinanceLeadAgent.check_request q) = .ok ⟨r⟩) :
    FinanceLeadAgent.is_query_relevant llm q = (pyUpper (pyStrip r) == "YES")
    ∧ (FinanceLeadAgent.check_request q).temperature = 0
    ∧ (FinanceLeadAgent.check_request q).max_tokens = 10 := by
  refine ⟨?_, rfl, rfl⟩
  simp [FinanceLeadAgent.is_query_relevant, h]

theorem gate_normalization_and_params_witness :
    FinanceLeadAgent.is_query_relevant (llmReply "  yes \n") "valuation"
        = (pyUpper (pyStrip "  yes \n") == "YES")
    ∧ (FinanceLeadAgent.check_request "valuation").temperature = 0
    ∧ (FinanceLeadAgent.check_request "valuation").max_tokens = 10 :=
  gate_normalization_and_params (llmReply "  yes \n") "valuation" "  yes \n" rfl

/-- C2 (counterexample): releasing the absent agent_type `"nonexistent"` on a
registry caching one finance agent is not a no-op — the handler falls into the
clean-up-all branch, the cached instance's cleanup is invoked and the registry
ends up empty, not unchanged. -/
theorem release_absent_cx :
    ApiServer.cleanup_agents [("finance_lead", ⟨0, .finance_lead⟩)]
        (fun _ => .ok ()) (some "nonexistent")
      = ([], none, ["finance_lead"])
    ∧ ([] : List (String × AgentInstance)) ≠ [("finance_lead", ⟨0, .finance_lead⟩)] := by
  constructor
  · rfl
  · decide

/-- C2 (amended): for an agent_type not present in the registry, the release
handler falls through to the clean-up-all branch — it invokes each cached
instance's cleanup in order (stopping if one raises) and removes the cleaned
entries — so it is a no-op only when the registry is already empty. -/
theorem release_absent_amended (agents : List (String × AgentInstance))
    (f : CleanupAgent) (t : String) (h : lookupKey agents t = none) :
    ApiServer.cleanup_agents agents f (some t) = ApiServer.cleanup_all agents f
    ∧ ApiServer.cleanup_all [] f = ([], none, []) := by
  refine ⟨?_, rfl⟩
  by_cases ht : t = "" <;> simp [ApiServer.cleanup_agents, ht, h]

theorem release_absent_amended_witness :
    ApiServer.cleanup_agents [("mcp", ⟨0, .mcp⟩)] (fun _ => .ok ()) (some "zzz")
        = ApiServer.cleanup_all [("mcp", ⟨0, .mcp⟩)] (fun _ => .ok ())
    ∧ ApiServer.cleanup_all [] (fun _ => .ok ()) = ([], none, []) :=
  release_absent_amended [("mcp", ⟨0, .mcp⟩)] (fun _ => .ok ()) "zzz" (by decide)

/-- C3: running or cleaning up the delegation tool instance `i` touches only
that instance's private registry: every other tool instance's registry and the
outward-facing server registry are unchanged, so a specialist created through
one `AgentCallTool` instance is never visible from, nor cleared by, another
tool instance or the outward registry. -/
theorem tool_registry_isolation (p : ProcessState) (i j : Nat) (hij : j ≠ i)
    (g : RunAgent) (f : CleanupAgent) (ty q : String) (ctx : Option String)
    (r : String) (p2 p3 : ProcessState)
    (h1 : p.toolRun i g ty q ctx = some (r, p2))
    (h2 : p.toolCleanup i f = some p3) :
    lookupTool p2.tools j = lookupTool p.tools j
    ∧ p2.serverAgents = p.serverAgents
    ∧ lookupTool p3.tools j = lookupTool p.tools j
    ∧ p3.serverAgents = p.serverAgents := by
  cases hl : lookupTool p.tools i with
  | none =>
      simp [ProcessState.toolRun, hl] at h1
  | some t =>
      simp [ProcessState.toolRun, hl] at h1
      simp [ProcessState.toolCleanup, hl] at h2
      obtain ⟨-, hp2⟩ := h1
      refine ⟨?_, ?_, ?_, ?_⟩ <;>
        simp [← hp2, ← h2, lookupTool_updateTool_of_ne _ _ _ _ hij]

/-- A process with two freshly constructed delegation tools (ids 0 and 1). -/
def procW : ProcessState :=
  { serverAgents := [], serverNextId := 0
    tools := [(0, ⟨[], 0⟩), (1, ⟨[], 0⟩)] }

/-- `procW` after tool instance 0 delegated once to `"mcp"`, caching a fresh
mcp agent in its own registry. -/
def procW2 : ProcessState :=
  { serverAgents := [], serverNextId := 0
    tools := [(0, ⟨[("mcp", ⟨0, .mcp⟩)], 1⟩), (1, ⟨[], 0⟩)] }

theorem tool_registry_isolation_witness :
    lookupTool procW2.tools 1 = lookupTool procW.tools 1
    ∧ procW2.serverAgents = procW.serverAgents
    ∧ lookupTool procW.tools 1 = lookupTool procW.tools 1
    ∧ procW.serverAgents = procW.serverAgents :=
  tool_registry_isolation procW 0 1 (by decide) (fun _ s => .ok s) (fun _ => .ok ())
    "mcp" "x" none
    (AgentCallTool.formatted_result "Browser Automation Specialist" "mcp" "x")
    procW2 procW (by decide) (by decide)

/-- C6: the delegation tool's invoke converts every failure into a returned
text: an unknown agent_type yields the descriptive error string carrying the
`Unknown agent type` marker (registry untouched), and an exception raised by
the delegated specialist's run is caught and returned as the descriptive error
string — never re-raised. -/
theorem delegation_error_policy (t : AgentCallTool) (runAgent : RunAgent)
    (ty q : String) (ctx : Option String) :
    (lookupKey t.agent_instances ty = none → AgentCallTool.kindOf ty = none →
        t.run runAgent ty q ctx
          = (AgentCallTool.error_result ty ("Unknown agent type: " ++ ty), t))
    ∧ (∀ a t2 e, t.get_agent ty = .ok (a, t2) →
        runAgent a (AgentCallTool.full_query ctx q) = .error e →
        t.run runAgent ty q ctx = (AgentCallTool.error_result ty e, t2)) := by
  constructor
  · intro hu hk
    simp [AgentCallTool.run, AgentCallTool.get_agent, hu, hk]
  · intro a t2 e hget hrun
    simp [AgentCallTool.run, hget, hrun]

theorem delegation_error_policy_witness :
    AgentCallTool.run ⟨[], 0⟩ (fun _ _ => .error "boom") "nonexistent" "x" none
      = (AgentCallTool.error_result "nonexistent"
          ("Unknown agent type: " ++ "nonexistent"), ⟨[], 0⟩)
    ∧ AgentCallTool.run ⟨[], 0⟩ (fun _ _ => .error "boom") "mcp" "x" none
      = (AgentCallTool.error_result "mcp" "boom", ⟨[("mcp", ⟨0, .mcp⟩)], 1⟩) :=
  ⟨(delegation_error_policy ⟨[], 0⟩ (fun _ _ => .error "boom") "nonexistent" "x" none).1
      (by decide) (by decide),
   (delegation_error_policy ⟨[], 0⟩ (fun _ _ => .error "boom") "mcp" "x" none).2
      ⟨0, .mcp⟩ ⟨[("mcp", ⟨0, .mcp⟩)], 1⟩ "boom" (by decide) rfl⟩

/-- C7: the text forwarded to the resolved specialist is
`context ++ "\n\nQuery: " ++ query` when a nonempty context is given and the
bare query otherwise — witnessed both by the `full_query` builder itself and
by an observing specialist stub that reports exactly the text it received. -/
theorem delegation_context_joining (t : AgentCallTool) (ty q c : String)
    (hc : c ≠ "") :
    AgentCallTool.full_query (some c) q = c ++ "\n\nQuery: " ++ q
    ∧ AgentCallTool.full_query none q = q
    ∧ (∀ a t2, t.get_agent ty = .ok (a, t2) →
        (t.run (fun _ s => .error s) ty q (some c)).1
            = AgentCallTool.error_result ty (c ++ "\n\nQuery: " ++ q)
          ∧ (t.run (fun _ s => .error s) ty q none).1
            = AgentCallTool.error_result ty q) := by
  refine ⟨by simp [AgentCallTool.full_query, hc], rfl, ?_⟩
  intro a t2 hget
  constructor <;> simp [AgentCallTool.run, hget, AgentCallTool.full_query, hc]

theorem delegation_context_joining_witness :
    AgentCallTool.full_query (some "C") "Q" = "C" ++ "\n\nQuery: " ++ "Q"
    ∧ AgentCallTool.full_query none "Q" = "Q"
    ∧ ((AgentCallTool.run ⟨[], 0⟩ (fun _ s => .error s) "mcp" "Q" (some "C")).1
          = AgentCallTool.error_result "mcp" ("C" ++ "\n\nQuery: " ++ "Q")
        ∧ (AgentCallTool.run ⟨[], 0⟩ (fun _ s => .error s) "mcp" "Q" none).1
          = AgentCallTool.error_result "mcp" "Q") :=
  ⟨(delegation_context_joining ⟨[], 0⟩ "mcp" "Q" "C" (by decide)).1,
   (delegation_context_joining ⟨[], 0⟩ "mcp" "Q" "C" (by decide)).2.1,
   (delegation_context_joining ⟨[], 0⟩ "mcp" "Q" "C" (by decide)).2.2
      ⟨0, .mcp⟩ ⟨[("mcp", ⟨0, .mcp⟩)], 1⟩ (by decide)⟩

/-- C9: the delegation tool's cleanup is total — after it, the tool's registry
holds zero cached entries, and its log shows one independent cleanup attempt
per cached instance (in cache order, each entry recording only that instance's
own outcome), so one instance's failure aborts neither the other cleanups nor
the final clearing. -/
theorem release_all_total (t : AgentCallTool) (f : CleanupAgent) :
    (t.cleanup f).1.agent_instances = []
    ∧ (t.cleanup f).2
        = t.agent_instances.map (fun p => (p.1, cleanupError (f p.2))) :=
  ⟨rfl, cleanup_loop_eq_map t.agent_instances f⟩

/-- C10: for a known agent_type, a second `get_or_create` without an
intervening release returns the identical cached instance and leaves the
registry unchanged — in the delegation tool's registry and in the
outward-facing server registry alike. -/
theorem get_or_create_stable (t : AgentCallTool) (ty : String)
    (a : AgentInstance) (t2 : AgentCallTool)
    (agents : List (String × AgentInstance)) (n : Nat) (b : AgentInstance)
    (agents2 : List (String × AgentInstance)) (n2 : Nat)
    (h1 : t.get_agent ty = .ok (a, t2))
    (h2 : ApiServer.get_agent agents n ty = .ok (b, agents2, n2)) :
    t2.get_agent ty = .ok (a, t2)
    ∧ ApiServer.get_agent agents2 n2 ty = .ok (b, agents2, n2) := by
  constructor
  · cases hl : lookupKey t.agent_instances ty with
    | some inst =>
        simp [AgentCallTool.get_agent, hl] at h1
        obtain ⟨ha, ht⟩ := h1
        subst ha; subst ht
        simp [AgentCallTool.get_agent, hl]
    | none =>
        cases hk : AgentCallTool.kindOf ty with
        | some k =>
            simp [AgentCallTool.get_agent, hl, hk] at h1
            obtain ⟨ha, ht⟩ := h1
            subst ha; subst ht
            simp [AgentCallTool.get_agent, lookupKey_insertKey_self]
        | none => simp [AgentCallTool.get_agent, hl, hk] at h1
  · cases hl : lookupKey agents ty with
    | some inst =>
        simp [ApiServer.get_agent, hl] at h2
        obtain ⟨hb, hg, hn⟩ := h2
        subst hb; subst hg; subst hn
        simp [ApiServer.get_agent, hl]
    | none =>
        cases hk : ApiServer.kindOf ty with
        | some k =>
            simp [ApiServer.get_agent, hl, hk] at h2
            obtain ⟨hb, hg, hn⟩ := h2
            subst hb; subst hg; subst hn
            simp [ApiServer.get_agent, lookupKey_insertKey_self]
        | none => simp [ApiServer.get_agent, hl, hk] at h2

theorem get_or_create_stable_witness :
    AgentCallTool.get_agent ⟨[("finance_lead", ⟨0, .finance_lead⟩)], 1⟩ "finance_lead"
      = .ok (⟨0, .finance_lead⟩, ⟨[("finance_lead", ⟨0, .finance_lead⟩)], 1⟩)
    ∧ ApiServer.get_agent [("finance_lead", ⟨0, .finance_lead⟩)] 1 "finance_lead"
      = .ok (⟨0, .finance_lead⟩, [("finance_lead", ⟨0, .finance_lead⟩)], 1) :=
  get_or_create_stable ⟨[], 0⟩ "finance_lead" ⟨0, .finance_lead⟩
    ⟨[("finance_lead", ⟨0, .finance_lead⟩)], 1⟩
    [] 0 ⟨0, .finance_lead⟩ [("finance_lead", ⟨0, .finance_lead⟩)] 1
    (by decide) (by decide)

end Spec2Proof
